import Mathlib

/-!
Shallow embedding of the Nursing learning-management application
(`courses/models.py`, `courses/forms.py`, `courses/views.py`).

Database rows become Lean structures, the database becomes a record of
row lists, and each request handler becomes a pure function from the
database (plus the request parameters) to a response, returning the
updated database when the handler writes.  Presentation-only model
fields (descriptions, thumbnails, timestamps that no handler reads) are
omitted; every field a handler or form reads or writes is kept under its
source name.
-/

namespace Nursing

/-- Level of a Django flash message (`django.contrib.messages`). -/
inductive MsgLevel where
  | success
  | info
  | warning
  | error
deriving DecidableEq, Repr

/-- A flash message attached to a response. -/
structure Msg where
  level : MsgLevel
  text : String
deriving DecidableEq, Repr

/-- Responses the modelled handlers produce.  `render` and `redirect`
carry the flash message the view attached (if any); `notFound` stands
for an `Http404` / `get_object_or_404` failure; `fileAttachment` is a
`FileResponse` attachment and `pdfAttachment` the generated-certificate
`HttpResponse` (identified by the certificate number it carries). -/
inductive HResp where
  | render (template : String) (msg : Option Msg)
  | redirect (target : String) (msg : Option Msg)
  | notFound
  | fileAttachment (fileName : String)
  | pdfAttachment (certNumber : String)
deriving DecidableEq, Repr

/-- `django.contrib.auth.models.User` (the fields the app reads). -/
structure User where
  id : Nat
  username : String
  password : String
  first_name : String
  last_name : String
  email : String
  is_staff : Bool
  is_active : Bool
deriving DecidableEq, Repr

/-- `models.Batch`. -/
structure Batch where
  id : Nat
  name : String
  is_active : Bool
deriving DecidableEq, Repr

/-- `models.StudentProfile`.  `enrolled_courses` is the many-to-many
set of course ids the admin assigned. -/
structure StudentProfile where
  id : Nat
  userId : Nat
  student_id : String
  phone : String
  batchId : Option Nat
  is_active : Bool
  is_verified : Bool
  enrolled_courses : List Nat
deriving DecidableEq, Repr

/-- `models.Course`. -/
structure Course where
  id : Nat
  title : String
  is_active : Bool
deriving DecidableEq, Repr

/-- `models.Module`. -/
structure Module where
  id : Nat
  courseId : Nat
  title : String
  order : Nat
  is_published : Bool
  admin_completed : Bool
deriving DecidableEq, Repr

/-- `models.ModuleCompletion` (unique together on student, module). -/
structure ModuleCompletion where
  studentId : Nat
  moduleId : Nat
  completed : Bool
  completed_at : Option Nat
deriving DecidableEq, Repr

/-- `models.Resource`.  `file` is kept as its stored name. -/
structure Resource where
  id : Nat
  courseId : Nat
  moduleId : Option Nat
  title : String
  file : String
  is_active : Bool
deriving DecidableEq, Repr

/-- `models.Certificate` (unique together on student, course;
`certificate_number` unique).  `issue_date` is the `auto_now_add` date
as an abstract day number; `pdf_file` the stored file name, `none`
until a PDF is saved. -/
structure Certificate where
  studentId : Nat
  courseId : Nat
  issue_date : Nat
  certificate_number : String
  pdf_file : Option String
deriving DecidableEq, Repr

/-- The relational store: one list per table the handlers touch. -/
structure DB where
  users : List User
  batches : List Batch
  profiles : List StudentProfile
  courses : List Course
  modules : List Module
  completions : List ModuleCompletion
  resources : List Resource
  certificates : List Certificate
deriving DecidableEq, Repr

/-- `request.user.student_profile`: the profile of the authenticated
user, `none` when `StudentProfile.DoesNotExist` is raised. -/
def findProfile (db : DB) (uid : Nat) : Option StudentProfile :=
  db.profiles.find? (fun s => s.userId == uid)

/-- `Course.objects.get(id=cid)` lookup. -/
def findCourse (db : DB) (cid : Nat) : Option Course :=
  db.courses.find? (fun c => c.id == cid)

/-- Whether the course with id `cid` exists and is active. -/
def courseIsActive (db : DB) (cid : Nat) : Bool :=
  (findCourse db cid).any (fun c => c.is_active)

/-- `student.enrolled_courses.filter(is_active=True)` as the list of
course ids (views.py dashboard line 116, student_profile line 271). -/
def enrolledActiveCourses (db : DB) (s : StudentProfile) : List Nat :=
  s.enrolled_courses.filter (fun cid => courseIsActive db cid)

/-- `student.enrolled_courses.filter(id=cid).exists()`: the enrollment
membership test the gated views run. -/
def enrolledIn (s : StudentProfile) (cid : Nat) : Bool :=
  s.enrolled_courses.contains cid

/-- views.py lines 127-130 (dashboard): `Module.objects.filter(
course__in=enrolled_courses, admin_completed=True).count()`. -/
def dashboard_completed_modules (db : DB) (s : StudentProfile) : Nat :=
  (db.modules.filter (fun m =>
    (enrolledActiveCourses db s).contains m.courseId && m.admin_completed)).length

/-- views.py lines 274-277 (student_profile): `Module.objects.filter(
course__in=enrolled_courses, is_published=True).count()`. -/
def profile_total_modules (db : DB) (s : StudentProfile) : Nat :=
  (db.modules.filter (fun m =>
    (enrolledActiveCourses db s).contains m.courseId && m.is_published)).length

/-- views.py lines 279-283 (student_profile): `ModuleCompletion.objects
.filter(student=student, module__course__in=enrolled_courses,
completed=True).count()`. -/
def profile_completed_modules (db : DB) (s : StudentProfile) : Nat :=
  (db.completions.filter (fun c =>
    c.studentId == s.id &&
    db.modules.any (fun m =>
      m.id == c.moduleId && (enrolledActiveCourses db s).contains m.courseId) &&
    c.completed)).length

/-- views.py line 314 (generate_certificate):
`course.modules.filter(is_published=True).count()`. -/
def cert_total_modules (db : DB) (cid : Nat) : Nat :=
  (db.modules.filter (fun m => m.courseId == cid && m.is_published)).length

/-- views.py lines 315-319 (generate_certificate):
`ModuleCompletion.objects.filter(student=student, module__course=course,
completed=True).count()`. -/
def cert_completed_modules (db : DB) (sid cid : Nat) : Nat :=
  (db.completions.filter (fun c =>
    c.studentId == sid &&
    db.modules.any (fun m => m.id == c.moduleId && m.courseId == cid) &&
    c.completed)).length

/-- models.py Certificate.generate_certificate_number:
`f"NCC-{year}-{self.student.student_id}"` for the current year. -/
def generate_certificate_number (year : Nat) (s : StudentProfile) : String :=
  "NCC-" ++ toString year ++ "-" ++ s.student_id

/-- models.py ModuleCompletion.mark_complete: sets `completed` and
stamps `completed_at` with the current time.  No request handler in
views.py calls it. -/
def mark_complete (c : ModuleCompletion) (now : Nat) : ModuleCompletion :=
  { c with completed := true, completed_at := some now }

/-- `authenticate(username=..., password=...)` with Django's default
model backend: credentials must match and the account must be active. -/
def authenticate (db : DB) (username password : String) : Option User :=
  db.users.find? (fun u =>
    u.username == username && u.password == password && u.is_active)

/-- views.py student_login, POST branch for an unauthenticated request.
Returns the response together with the session established by the
`login(request, user)` call (`none` when no session is created). -/
def student_login (db : DB) (username password : String) : HResp × Option Nat :=
  match authenticate db username password with
  | some user =>
    match findProfile db user.id with
    | some s =>
      if !s.is_verified then
        (HResp.redirect "login" (some ⟨MsgLevel.warning,
          "Your account is pending verification by the administrator. Please wait for approval."⟩),
         none)
      else
        (HResp.redirect "dashboard" (some ⟨MsgLevel.success,
          "Welcome back, " ++ user.first_name ++ " " ++ user.last_name ++ "!"⟩),
         some user.id)
    | none =>
      (HResp.render "login.html" (some ⟨MsgLevel.error,
        "This account is not a student account."⟩), none)
  | none =>
    (HResp.render "login.html" (some ⟨MsgLevel.error,
      "Invalid username or password."⟩), none)

/-- The registration form's submitted fields (forms.py
StudentRegistrationForm).  `batchId` is the selected batch, `none` when
the required choice is missing. -/
structure RegistrationInput where
  username : String
  first_name : String
  last_name : String
  email : String
  student_id : String
  phone : String
  batchId : Option Nat
  password1 : String
  password2 : String
deriving DecidableEq, Repr

/-- Field-level validation errors the registration form can raise. -/
inductive RegError where
  | missing_required
  | username_taken
  | password_mismatch
  | duplicate_student_id
  | duplicate_email
  | invalid_batch
deriving DecidableEq, Repr

/-- forms.py clean_email: an empty email is returned as `""` with no
check; otherwise it is lowercased and stripped. -/
def clean_email_value (inp : RegistrationInput) : String :=
  if inp.email == "" then "" else inp.email.toLower.trim

/-- forms.py clean_email duplicate test: only a non-empty email is
compared (case-insensitively) against existing users. -/
def email_conflict (db : DB) (inp : RegistrationInput) : Bool :=
  inp.email != "" &&
    db.users.any (fun u => u.email.toLower == inp.email.toLower.trim)

/-- The form's `is_valid` outcome as the list of field errors:
required-field and username-uniqueness checks from `UserCreationForm`,
the active-batch constraint of the `batch` choice field, and the
custom `clean_student_id` / `clean_email` duplicate checks. -/
def registration_errors (db : DB) (inp : RegistrationInput) : List RegError :=
  (if inp.username == "" || inp.first_name == "" || inp.last_name == "" ||
      inp.student_id == "" || inp.phone == "" ||
      inp.password1 == "" || inp.password2 == ""
   then [RegError.missing_required] else []) ++
  (if db.users.any (fun u => u.username == inp.username)
   then [RegError.username_taken] else []) ++
  (if inp.password1 != inp.password2
   then [RegError.password_mismatch] else []) ++
  (match inp.batchId with
   | none => [RegError.invalid_batch]
   | some b =>
     if db.batches.any (fun x => x.id == b && x.is_active) then []
     else [RegError.invalid_batch]) ++
  (if db.profiles.any (fun s => s.student_id == inp.student_id)
   then [RegError.duplicate_student_id] else []) ++
  (if email_conflict db inp then [RegError.duplicate_email] else [])

/-- views.py student_register, POST branch for an unauthenticated
request, together with forms.py `save`: on a valid form one `User` row
and one `StudentProfile` row are inserted (ids supplied by the store);
on an invalid form the template is re-rendered and nothing is written. -/
def student_register (db : DB) (inp : RegistrationInput)
    (newUserId newProfileId : Nat) : HResp × DB :=
  if (registration_errors db inp).isEmpty then
    let user : User :=
      { id := newUserId, username := inp.username,
        password := inp.password1, first_name := inp.first_name,
        last_name := inp.last_name, email := clean_email_value inp,
        is_staff := false, is_active := true }
    let profile : StudentProfile :=
      { id := newProfileId, userId := newUserId,
        student_id := inp.student_id, phone := inp.phone, batchId := inp.batchId,
        is_active := true, is_verified := false, enrolled_courses := [] }
    (HResp.redirect "login" (some ⟨MsgLevel.success,
      "Registration successful! Your account is pending verification by the administrator. You will be able to login once your account is approved."⟩),
     { db with users := db.users ++ [user], profiles := db.profiles ++ [profile] })
  else
    (HResp.render "register.html" none, db)

/-- The context values the dashboard template receives that the claims
inspect: the active enrolled course ids and the completed-module count. -/
structure DashboardCtx where
  courseIds : List Nat
  completed_modules : Nat
deriving DecidableEq, Repr

/-- views.py dashboard: read-only; `none` context when the profile is
missing (redirect home). -/
def dashboard (db : DB) (uid : Nat) : HResp × Option DashboardCtx :=
  match findProfile db uid with
  | none =>
    (HResp.redirect "home" (some ⟨MsgLevel.error, "Student profile not found."⟩), none)
  | some s =>
    (HResp.render "dashboard.html" none,
     some { courseIds := enrolledActiveCourses db s,
            completed_modules := dashboard_completed_modules db s })

/-- The statistics the profile template receives. -/
structure ProfileCtx where
  total_modules : Nat
  completed_modules : Nat
deriving DecidableEq, Repr

/-- views.py student_profile, self-view path (no profile_id):
read-only; reports the module statistics of lines 274-283. -/
def student_profile (db : DB) (uid : Nat) : HResp × Option ProfileCtx :=
  match findProfile db uid with
  | none =>
    (HResp.redirect "home" (some ⟨MsgLevel.error, "Student profile not found."⟩), none)
  | some s =>
    (HResp.render "student_profile.html" none,
     some { total_modules := profile_total_modules db s,
            completed_modules := profile_completed_modules db s })

/-- views.py module_detail: 404 for a missing or unpublished module,
redirect for a non-enrolled student, otherwise
`ModuleCompletion.objects.get_or_create(student=student, module=module)`
followed by a render. -/
def module_detail (db : DB) (uid : Nat) (module_id : Nat) : HResp × DB :=
  match findProfile db uid with
  | none =>
    (HResp.redirect "home" (some ⟨MsgLevel.error, "Student profile not found."⟩), db)
  | some s =>
    match db.modules.find? (fun m => m.id == module_id && m.is_published) with
    | none => (HResp.notFound, db)
    | some m =>
      if !(enrolledIn s m.courseId) then
        (HResp.redirect "dashboard" (some ⟨MsgLevel.error,
          "You do not have access to this module."⟩), db)
      else
        if db.completions.any (fun c => c.studentId == s.id && c.moduleId == m.id) then
          (HResp.render "module_detail.html" none, db)
        else
          (HResp.render "module_detail.html" none,
           { db with completions :=
               { studentId := s.id, moduleId := m.id,
                 completed := false, completed_at := none } :: db.completions })

/-- views.py download_resource.  `fileOk` stands for the file open
succeeding in the final `try` block (an I/O condition outside the
store). -/
def download_resource (db : DB) (uid : Nat) (resource_id : Nat)
    (fileOk : Bool) : HResp :=
  match findProfile db uid with
  | none =>
    HResp.redirect "home" (some ⟨MsgLevel.error, "Student profile not found."⟩)
  | some s =>
    match db.resources.find? (fun r => r.id == resource_id && r.is_active) with
    | none => HResp.notFound
    | some r =>
      if !(enrolledIn s r.courseId) then
        HResp.notFound
      else
        if fileOk then
          HResp.fileAttachment ((r.file.splitOn "/").getLastD "")
        else
          HResp.redirect "course_detail" (some ⟨MsgLevel.error, "Error downloading file."⟩)

/-- The row predicate of the Certificate uniqueness constraint
(`unique_together student, course`) and of the view's get_or_create. -/
def certPair (sid cid : Nat) (c : Certificate) : Bool :=
  c.studentId == sid && c.courseId == cid

/-- The row `Certificate.objects.get_or_create(student=..., course=...)`
inserts when absent: number still empty, no stored file, `issue_date`
set to today by `auto_now_add`. -/
def blankCert (sid cid today : Nat) : Certificate :=
  { studentId := sid, courseId := cid, issue_date := today,
    certificate_number := "", pdf_file := none }

/-- What views.py lines 333-335 and 403-409 do to the certificate row
the view got or created: assign the certificate number when it is still
empty, then store the rendered PDF under
`certificate_<number>.pdf`. -/
def finalCert (year : Nat) (s : StudentProfile) (cert : Certificate) : Certificate :=
  let cert2 := if cert.certificate_number == ""
    then { cert with certificate_number := generate_certificate_number year s }
    else cert
  { cert2 with pdf_file := some ("certificate_" ++ cert2.certificate_number ++ ".pdf") }

/-- views.py generate_certificate: enrollment check, the completion
gate of lines 313-323, `Certificate.objects.get_or_create`, the lazy
certificate-number assignment of lines 333-335, and the
`pdf_file.save(f"certificate_....pdf", ...)` overwrite.  `year` is the
current year read by generate_certificate_number, `today` the
`auto_now_add` issue date of a freshly inserted row. -/
def generate_certificate (db : DB) (uid course_id year today : Nat) : HResp × DB :=
  match findProfile db uid with
  | none =>
    (HResp.redirect "home" (some ⟨MsgLevel.error, "Student profile not found."⟩), db)
  | some student =>
    match findCourse db course_id with
    | none => (HResp.notFound, db)
    | some course =>
      if !(enrolledIn student course.id) then
        (HResp.redirect "dashboard" (some ⟨MsgLevel.error,
          "You do not have access to this course."⟩), db)
      else
        if cert_completed_modules db student.id course.id <
            cert_total_modules db course.id then
          (HResp.redirect "course_detail" (some ⟨MsgLevel.error,
            "You must complete all modules before getting a certificate."⟩), db)
        else
          match db.certificates.find? (certPair student.id course.id) with
          | some cert =>
            (HResp.pdfAttachment (finalCert year student cert).certificate_number,
             { db with certificates := db.certificates.map (fun c =>
                 if certPair student.id course.id c then finalCert year student cert
                 else c) })
          | none =>
            let cert := blankCert student.id course.id today
            (HResp.pdfAttachment (finalCert year student cert).certificate_number,
             { db with certificates := finalCert year student cert :: db.certificates })

/-- Transcribed from the specification wording (not from the code), for
comparison: completed count of a course = number of its modules with
`is_published = true` and `admin_completed = true`. -/
def spec_completed_count (db : DB) (cid : Nat) : Nat :=
  (db.modules.filter (fun m =>
    m.courseId == cid && m.is_published && m.admin_completed)).length

/-- Transcribed from the specification wording: total count of a course
= number of its published modules. -/
def spec_total_count (db : DB) (cid : Nat) : Nat :=
  (db.modules.filter (fun m => m.courseId == cid && m.is_published)).length

/-- Transcribed from the specification wording: eligibility =
`completed_count == total_count` and `total_count > 0`, equivalently
every published module admin-completed and at least one published
module. -/
def spec_eligible (db : DB) (cid : Nat) : Bool :=
  spec_completed_count db cid == spec_total_count db cid &&
    decide (0 < spec_total_count db cid)

/-- At most one certificate row per (student, course) pair: the
Certificate `unique_together` constraint as a store invariant. -/
def CertsUnique (db : DB) : Prop :=
  ∀ sid cid, db.certificates.countP (fun c => certPair sid cid c) ≤ 1

/-! Concrete store states used by the closed theorems below. -/

/-- A verified student account. -/
def user1 : User :=
  { id := 1, username := "u1", password := "pw1", first_name := "Sam",
    last_name := "One", email := "", is_staff := false, is_active := true }

/-- An account whose profile is still unverified. -/
def user2 : User :=
  { id := 2, username := "u2", password := "pw2", first_name := "Tess",
    last_name := "Two", email := "t@example.com", is_staff := false,
    is_active := true }

def batch1 : Batch := { id := 1, name := "B1", is_active := true }

/-- Verified profile of user1, enrolled in course 1. -/
def profile1 : StudentProfile :=
  { id := 1, userId := 1, student_id := "S1", phone := "017", batchId := some 1,
    is_active := true, is_verified := true, enrolled_courses := [1] }

/-- Unverified profile of user2. -/
def profile2 : StudentProfile :=
  { id := 2, userId := 2, student_id := "S2", phone := "018", batchId := some 1,
    is_active := true, is_verified := false, enrolled_courses := [] }

def course1 : Course := { id := 1, title := "C1", is_active := true }

/-- A published module the admin has flagged completed. -/
def module1 : Module :=
  { id := 1, courseId := 1, title := "M1", order := 1,
    is_published := true, admin_completed := true }

/-- An unpublished module the admin has flagged completed. -/
def module2 : Module :=
  { id := 2, courseId := 1, title := "M2", order := 2,
    is_published := false, admin_completed := true }

def resource1 : Resource :=
  { id := 1, courseId := 1, moduleId := some 1, title := "R1",
    file := "resources/r1.pdf", is_active := true }

/-- Base store: course 1 active with one published admin-completed
module, student S1 enrolled and verified, no completion rows, no
certificates. -/
def db1 : DB :=
  { users := [user1, user2], batches := [batch1],
    profiles := [profile1, profile2], courses := [course1],
    modules := [module1], completions := [], resources := [resource1],
    certificates := [] }

/-- db1 with an additional unpublished admin-completed module. -/
def db2 : DB := { db1 with modules := [module1, module2] }

/-- A certificate from an earlier year, already rendered once. -/
def cert1 : Certificate :=
  { studentId := 1, courseId := 1, issue_date := 738000,
    certificate_number := "NCC-2025-S1", pdf_file := some "certificates/old.pdf" }

/-- Course with no modules at all and an existing certificate. -/
def db3 : DB := { db1 with modules := [], certificates := [cert1] }

/-- Course with no modules and no certificate yet. -/
def db4 : DB := { db1 with modules := [] }

/-- A registration submission with an empty (optional) email and fresh
username and Registration No. -/
def inp1 : RegistrationInput :=
  { username := "u3", first_name := "New", last_name := "Kid", email := "",
    student_id := "S3", phone := "019", batchId := some 1,
    password1 := "pw3", password2 := "pw3" }

/-- The same submission with S1's Registration No. -/
def inp2 : RegistrationInput := { inp1 with student_id := "S1" }

/-- The dashboard count of views.py lines 127-130, rephrased with
membership and propositional conjunction: modules of an active
enrolled course that the admin flagged completed, published or not. -/
theorem dashboard_completed_modules_char (db : DB) (s : StudentProfile) :
    dashboard_completed_modules db s =
      db.modules.countP (fun m =>
        decide (m.courseId ∈ enrolledActiveCourses db s ∧ m.admin_completed = true)) := by
  rw [dashboard_completed_modules, ← List.countP_eq_length_filter]
  apply List.countP_congr
  intro m _
  simp [List.contains, List.elem_eq_mem]

/-- The profile total of views.py lines 274-277, rephrased. -/
theorem profile_total_modules_char (db : DB) (s : StudentProfile) :
    profile_total_modules db s =
      db.modules.countP (fun m =>
        decide (m.courseId ∈ enrolledActiveCourses db s ∧ m.is_published = true)) := by
  rw [profile_total_modules, ← List.countP_eq_length_filter]
  apply List.countP_congr
  intro m _
  simp [List.contains, List.elem_eq_mem]

/-- The profile completed count of views.py lines 279-283, rephrased:
the student's completion rows with `completed = true` whose module
belongs to an active enrolled course. -/
theorem profile_completed_modules_char (db : DB) (s : StudentProfile) :
    profile_completed_modules db s =
      db.completions.countP (fun c =>
        decide (c.studentId = s.id ∧ c.completed = true ∧
          ∃ m ∈ db.modules, m.id = c.moduleId ∧
            m.courseId ∈ enrolledActiveCourses db s)) := by
  rw [profile_completed_modules, ← List.countP_eq_length_filter]
  apply List.countP_congr
  intro c _
  simp only [Bool.and_eq_true, beq_iff_eq, List.any_eq_true, decide_eq_true_eq,
    List.contains, List.elem_eq_mem, decide_eq_true_iff]
  constructor
  · rintro ⟨⟨h1, m, hm, hmid, hmc⟩, h3⟩
    exact ⟨h1, h3, m, hm, hmid, hmc⟩
  · rintro ⟨h1, h3, m, hm, hmid, hmc⟩
    exact ⟨⟨h1, m, hm, hmid, hmc⟩, h3⟩

/-- C1: the spec eligibility rule (every published module
admin-completed and at least one published module) disagrees with the
code in both directions.  In `db1` every published module of course 1
is admin-completed, yet the handler refuses and redirects, because its
gate (views.py lines 313-323) counts `ModuleCompletion` rows with
`completed = true` — rows nothing in the repository ever creates — not
the admin flag.  In `db4` the course has no published module at all,
which the spec calls ineligible, yet the handler succeeds and inserts a
certificate row. -/
theorem C1_certificate_gate_contradicts_spec :
    spec_eligible db1 1 = true ∧
    generate_certificate db1 1 1 2026 738890 =
      (HResp.redirect "course_detail" (some ⟨MsgLevel.error,
        "You must complete all modules before getting a certificate."⟩), db1) ∧
    spec_eligible db4 1 = false ∧
    (generate_certificate db4 1 1 2026 738890).1 =
      HResp.pdfAttachment "NCC-2026-S1" ∧
    (generate_certificate db4 1 1 2026 738890).2.certificates.length = 1 :=
  ⟨rfl, rfl, rfl, rfl, rfl⟩

/-- C2 counterexample: in `db2` (course 1 enrolled and active, module 1
published and admin-completed, module 2 unpublished and
admin-completed, no completion rows) the spec definition gives
completed_count 1, but the dashboard reports 2 (it never filters on
`is_published`) and the profile page reports 0 (it counts the student's
`ModuleCompletion` rows with `completed = true` instead of the admin
flag). -/
theorem C2_counterexample_reported_counts :
    spec_completed_count db2 1 = 1 ∧
    spec_total_count db2 1 = 1 ∧
    (dashboard db2 1).2 = some { courseIds := [1], completed_modules := 2 } ∧
    (student_profile db2 1).2 = some { total_modules := 1, completed_modules := 0 } :=
  ⟨rfl, rfl, rfl, rfl⟩

/-- C2 amended: for every student with a profile, the dashboard reports
completed_count as the number of modules of the student's active
enrolled courses with `admin_completed = true` regardless of
`is_published`, while the profile page reports total_count as the
number of published modules of those courses and completed_count as the
number of the student's ModuleCompletion rows with `completed = true`
for modules of those courses; neither handler uses the spec's
published-and-admin-completed definition. -/
theorem C2_amended_reported_counts (db : DB) (uid : Nat) (s : StudentProfile)
    (hs : findProfile db uid = some s) :
    (dashboard db uid).2 = some
      { courseIds := enrolledActiveCourses db s,
        completed_modules := db.modules.countP (fun m =>
          decide (m.courseId ∈ enrolledActiveCourses db s ∧
            m.admin_completed = true)) } ∧
    (student_profile db uid).2 = some
      { total_modules := db.modules.countP (fun m =>
          decide (m.courseId ∈ enrolledActiveCourses db s ∧
            m.is_published = true)),
        completed_modules := db.completions.countP (fun c =>
          decide (c.studentId = s.id ∧ c.completed = true ∧
            ∃ m ∈ db.modules, m.id = c.moduleId ∧
              m.courseId ∈ enrolledActiveCourses db s)) } := by
  rw [← dashboard_completed_modules_char, ← profile_total_modules_char,
    ← profile_completed_modules_char]
  simp [dashboard, student_profile, hs]

/-- Witness for C2_amended_reported_counts at `db2`. -/
theorem C2_amended_reported_counts_witness :
    (dashboard db2 1).2 = some
      { courseIds := enrolledActiveCourses db2 profile1,
        completed_modules := db2.modules.countP (fun m =>
          decide (m.courseId ∈ enrolledActiveCourses db2 profile1 ∧
            m.admin_completed = true)) } ∧
    (student_profile db2 1).2 = some
      { total_modules := db2.modules.countP (fun m =>
          decide (m.courseId ∈ enrolledActiveCourses db2 profile1 ∧
            m.is_published = true)),
        completed_modules := db2.completions.countP (fun c =>
          decide (c.studentId = profile1.id ∧ c.completed = true ∧
            ∃ m ∈ db2.modules, m.id = c.moduleId ∧
              m.courseId ∈ enrolledActiveCourses db2 profile1)) } :=
  C2_amended_reported_counts db2 1 profile1 rfl

/-- C5: when the handler's own completion gate fails for an enrolled
student, the request is answered with the ineligibility redirect and
the store is returned unchanged — no Certificate row and no file is
created. -/
theorem C5_ineligible_leaves_state_unchanged (db : DB)
    (uid cid year today : Nat) (s : StudentProfile) (c : Course)
    (hs : findProfile db uid = some s)
    (hc : findCourse db cid = some c)
    (he : enrolledIn s c.id = true)
    (hin : cert_completed_modules db s.id c.id < cert_total_modules db c.id) :
    generate_certificate db uid cid year today =
      (HResp.redirect "course_detail" (some ⟨MsgLevel.error,
        "You must complete all modules before getting a certificate."⟩), db) := by
  simp only [generate_certificate, hs, hc]
  simp [he, hin]

/-- Witness for C5_ineligible_leaves_state_unchanged at `db1`. -/
theorem C5_ineligible_leaves_state_unchanged_witness :
    generate_certificate db1 1 1 2026 738890 =
      (HResp.redirect "course_detail" (some ⟨MsgLevel.error,
        "You must complete all modules before getting a certificate."⟩), db1) :=
  C5_ineligible_leaves_state_unchanged db1 1 1 2026 738890 profile1 course1
    rfl rfl rfl (by decide)

/-- C6: for an unverified student profile a login attempt with correct
credentials creates no session and is answered with a redirect back to
the login page carrying the pending-verification warning (not an
error). -/
theorem C6_unverified_login_no_session (db : DB) (username password : String)
    (u : User) (s : StudentProfile)
    (hu : authenticate db username password = some u)
    (hp : findProfile db u.id = some s)
    (hv : s.is_verified = false) :
    student_login db username password =
      (HResp.redirect "login" (some ⟨MsgLevel.warning,
        "Your account is pending verification by the administrator. Please wait for approval."⟩),
       none) := by
  simp only [student_login, hu, hp]
  simp [hv]

/-- Witness for C6_unverified_login_no_session: user u2 with correct
password and unverified profile. -/
theorem C6_unverified_login_no_session_witness :
    student_login db1 "u2" "pw2" =
      (HResp.redirect "login" (some ⟨MsgLevel.warning,
        "Your account is pending verification by the administrator. Please wait for approval."⟩),
       none) :=
  C6_unverified_login_no_session db1 "u2" "pw2" user2 profile2 rfl rfl rfl

/-- finalCert never touches the key fields of the row. -/
theorem finalCert_keys (year : Nat) (s : StudentProfile) (k : Certificate) :
    (finalCert year s k).studentId = k.studentId ∧
    (finalCert year s k).courseId = k.courseId := by
  simp only [finalCert]
  split <;> exact ⟨rfl, rfl⟩

/-- finalCert on a row whose number is already set only replaces the
stored file. -/
theorem finalCert_of_number_set (year : Nat) (s : StudentProfile)
    (k : Certificate) (hnum : k.certificate_number ≠ "") :
    finalCert year s k =
      { k with pdf_file := some ("certificate_" ++ k.certificate_number ++ ".pdf") } := by
  simp [finalCert, hnum]

/-- finalCert assigns the generated number to a row whose number is
still empty. -/
theorem finalCert_of_number_empty (year : Nat) (s : StudentProfile)
    (k : Certificate) (hnum : k.certificate_number = "") :
    finalCert year s k =
      { k with
        certificate_number := generate_certificate_number year s,
        pdf_file := some ("certificate_" ++ generate_certificate_number year s ++ ".pdf") } := by
  simp [finalCert, hnum]

/-- finalCert preserves the matched key predicate. -/
theorem certPair_finalCert (sid cid year : Nat) (s : StudentProfile)
    (k : Certificate) :
    certPair sid cid (finalCert year s k) = certPair sid cid k := by
  rcases finalCert_keys year s k with ⟨h1, h2⟩
  simp [certPair, h1, h2]

/-- find? over a list whose predicate-matching entries are all replaced
by a fixed matching value returns that value, provided find? matched
before. -/
theorem find_replace_first {α : Type} (p : α → Bool) (r : α) (hr : p r = true) :
    ∀ (l : List α) (k : α), l.find? p = some k →
      (l.map (fun a => if p a then r else a)).find? p = some r := by
  intro l
  induction l with
  | nil => exact fun k hk => by cases hk
  | cons a t ih =>
    intro k hk
    cases hpa : p a with
    | true =>
      simp [hpa, hr]
    | false =>
      rw [List.find?_cons_of_neg _ (by simp [hpa])] at hk
      simp only [List.map_cons, hpa, if_neg, Bool.false_eq_true, not_false_iff]
      rw [List.find?_cons_of_neg _ (by simp [hpa])]
      exact ih k hk

/-- countP is unchanged by a map that preserves the predicate. -/
theorem countP_map_invariant {α : Type} (g : α → α) (p : α → Bool)
    (hg : ∀ a, p (g a) = p a) (l : List α) :
    (l.map g).countP p = l.countP p := by
  induction l with
  | nil => rfl
  | cons a t ih => simp [List.countP_cons, hg, ih]

/-- C3: a certificate number assigned at generation (the certificate
row is created now, or exists with its number still unset) is
`NCC-<year>-<student_id>`, both in the stored row and on the returned
attachment. -/
theorem C3_certificate_number_format (db : DB) (uid cid year today : Nat)
    (s : StudentProfile) (c : Course)
    (hs : findProfile db uid = some s)
    (hc : findCourse db cid = some c)
    (he : enrolledIn s c.id = true)
    (hg : ¬ cert_completed_modules db s.id c.id < cert_total_modules db c.id)
    (hnew : db.certificates.find? (certPair s.id c.id) = none ∨
      ∃ k, db.certificates.find? (certPair s.id c.id) = some k ∧
        k.certificate_number = "") :
    ((generate_certificate db uid cid year today).2.certificates.find?
        (certPair s.id c.id)).map Certificate.certificate_number =
      some ("NCC-" ++ toString year ++ "-" ++ s.student_id) ∧
    (generate_certificate db uid cid year today).1 =
      HResp.pdfAttachment ("NCC-" ++ toString year ++ "-" ++ s.student_id) := by
  have hgen : generate_certificate_number year s =
      "NCC-" ++ toString year ++ "-" ++ s.student_id := rfl
  rcases hnew with hnone | ⟨k, hk, hkempty⟩
  · have hrun : generate_certificate db uid cid year today =
        (HResp.pdfAttachment
          (finalCert year s (blankCert s.id c.id today)).certificate_number,
         { db with certificates :=
             finalCert year s (blankCert s.id c.id today) :: db.certificates }) := by
      simp only [generate_certificate, hs, hc]
      simp [he, hg, hnone]
    have hfc := finalCert_of_number_empty year s (blankCert s.id c.id today) rfl
    rw [hrun, hfc]
    refine ⟨?_, by simp [hgen, blankCert]⟩
    rw [List.find?_cons_of_pos _ (by simp [certPair, blankCert])]
    simp [hgen, blankCert]
  · have hkp : certPair s.id c.id k = true := List.find?_some hk
    have hrun : generate_certificate db uid cid year today =
        (HResp.pdfAttachment (finalCert year s k).certificate_number,
         { db with certificates := db.certificates.map (fun a =>
             if certPair s.id c.id a then finalCert year s k else a) }) := by
      simp only [generate_certificate, hs, hc]
      simp [he, hg, hk]
    have hfc := finalCert_of_number_empty year s k hkempty
    rw [hrun]
    constructor
    · have hfind := find_replace_first (certPair s.id c.id) (finalCert year s k)
        (by rw [certPair_finalCert]; exact hkp) db.certificates k hk
      rw [hfind, hfc]
      simp [hgen]
    · simp [hfc, hgen]

/-- C4: the store keeps at most one certificate row per (student,
course) pair across any generation request, and re-invoking generation
for an existing, already-numbered certificate rewrites only `pdf_file`:
the row keeps its `certificate_number` and `issue_date`, every
non-matching row is untouched, and the response carries the old
number. -/
theorem C4_unique_row_and_stable_identity :
    (∀ (db : DB) (uid cid year today : Nat), CertsUnique db →
        CertsUnique (generate_certificate db uid cid year today).2) ∧
    (∀ (db : DB) (uid cid year today : Nat) (s : StudentProfile) (c : Course)
        (k : Certificate),
        findProfile db uid = some s →
        findCourse db cid = some c →
        enrolledIn s c.id = true →
        ¬ cert_completed_modules db s.id c.id < cert_total_modules db c.id →
        db.certificates.find? (certPair s.id c.id) = some k →
        k.certificate_number ≠ "" →
        (generate_certificate db uid cid year today).2.certificates =
          db.certificates.map (fun a => if certPair s.id c.id a then
            { k with pdf_file := some ("certificate_" ++ k.certificate_number ++ ".pdf") }
            else a) ∧
        (generate_certificate db uid cid year today).2.certificates.find?
            (certPair s.id c.id) =
          some { k with pdf_file := some ("certificate_" ++ k.certificate_number ++ ".pdf") } ∧
        (generate_certificate db uid cid year today).1 =
          HResp.pdfAttachment k.certificate_number) := by
  constructor
  · intro db uid cid year today hu
    unfold generate_certificate
    split
    · exact hu
    next s hs =>
      split
      · exact hu
      next c hc =>
        split
        · exact hu
        next henr =>
          split
          · exact hu
          next hgate =>
            split
            next cert hfind =>
              intro sid0 cid0
              have hmap : (db.certificates.map (fun a =>
                  if certPair s.id c.id a then finalCert year s cert else a)).countP
                    (fun x => certPair sid0 cid0 x) =
                  db.certificates.countP (fun x => certPair sid0 cid0 x) := by
                apply countP_map_invariant
                intro a
                by_cases hpa : certPair s.id c.id a = true
                · have hka : certPair s.id c.id cert = true := List.find?_some hfind
                  simp only [hpa, if_true]
                  rw [certPair_finalCert]
                  simp only [certPair, Bool.and_eq_true, beq_iff_eq] at hka hpa ⊢
                  rw [hka.1, hka.2, hpa.1, hpa.2]
                · simp [hpa]
              simpa [hmap] using hu sid0 cid0
            next hfind =>
              intro sid0 cid0
              by_cases hsame : sid0 = s.id ∧ cid0 = c.id
              · have h0 : db.certificates.countP (fun x => certPair sid0 cid0 x) = 0 := by
                  rw [List.countP_eq_zero]
                  intro a ha
                  have := List.find?_eq_none.mp hfind a ha
                  rw [hsame.1, hsame.2]
                  exact this
                rw [List.countP_cons, h0]
                split <;> simp
              · rw [List.countP_cons]
                have hno : certPair sid0 cid0
                    (finalCert year s (blankCert s.id c.id today)) = false := by
                  rw [certPair_finalCert]
                  cases hq : certPair sid0 cid0 (blankCert s.id c.id today) with
                  | false => rfl
                  | true =>
                    exfalso
                    simp only [certPair, blankCert, Bool.and_eq_true, beq_iff_eq] at hq
                    exact hsame ⟨hq.1.symm, hq.2.symm⟩
                rw [hno]
                simpa using hu sid0 cid0
  · intro db uid cid year today s c k hs hc he hg hk hnum
    have hkp : certPair s.id c.id k = true := List.find?_some hk
    have hfc := finalCert_of_number_set year s k hnum
    have hrun : generate_certificate db uid cid year today =
        (HResp.pdfAttachment (finalCert year s k).certificate_number,
         { db with certificates := db.certificates.map (fun a =>
             if certPair s.id c.id a then finalCert year s k else a) }) := by
      simp only [generate_certificate, hs, hc]
      simp [he, hg, hk]
    refine ⟨?_, ?_, ?_⟩
    · rw [hrun, ← hfc]
    · rw [hrun]
      have hfind := find_replace_first (certPair s.id c.id) (finalCert year s k)
        (by rw [certPair_finalCert]; exact hkp) db.certificates k hk
      rw [show ({ db with certificates := db.certificates.map (fun a =>
          if certPair s.id c.id a then finalCert year s k else a) } : DB).certificates
        = db.certificates.map (fun a =>
          if certPair s.id c.id a then finalCert year s k else a) from rfl]
      rw [hfind, hfc]
    · rw [hrun, hfc]

/-- Witness for C3_certificate_number_format: a fresh certificate gets
the number NCC-2026-S1. -/
theorem C3_certificate_number_format_witness :
    ((generate_certificate db4 1 1 2026 738890).2.certificates.find?
        (certPair profile1.id course1.id)).map Certificate.certificate_number =
      some ("NCC-" ++ toString 2026 ++ "-" ++ profile1.student_id) ∧
    (generate_certificate db4 1 1 2026 738890).1 =
      HResp.pdfAttachment ("NCC-" ++ toString 2026 ++ "-" ++ profile1.student_id) :=
  C3_certificate_number_format db4 1 1 2026 738890 profile1 course1 rfl rfl rfl
    (by decide) (Or.inl rfl)

/-- Witness for C4_unique_row_and_stable_identity: re-generation over
the 2025 certificate keeps its number and issue date and only rewrites
the stored file. -/
theorem C4_unique_row_and_stable_identity_witness :
    (generate_certificate db4 1 1 2026 738890).2.certificates.countP
        (fun x => certPair 1 1 x) ≤ 1 ∧
    ((generate_certificate db3 1 1 2026 738890).2.certificates =
       db3.certificates.map (fun a => if certPair profile1.id course1.id a then
         { cert1 with pdf_file := some ("certificate_" ++ cert1.certificate_number ++ ".pdf") }
         else a) ∧
     (generate_certificate db3 1 1 2026 738890).2.certificates.find?
         (certPair profile1.id course1.id) =
       some { cert1 with pdf_file := some ("certificate_" ++ cert1.certificate_number ++ ".pdf") } ∧
     (generate_certificate db3 1 1 2026 738890).1 =
       HResp.pdfAttachment cert1.certificate_number) :=
  ⟨C4_unique_row_and_stable_identity.1 db4 1 1 2026 738890
      (fun sid cid => by simp [db4, db1]) 1 1,
   C4_unique_row_and_stable_identity.2 db3 1 1 2026 738890 profile1 course1 cert1
      rfl rfl rfl (by decide) rfl (by decide)⟩

/-- C7: for an authenticated student with a profile, the download
handler answers `notFound` whenever the resource lookup with
`is_active=True` fails (the resource is missing or inactive) — the same
response as for a nonexistent resource — and `notFound` when the
student is not enrolled in the resource's course; a file is delivered
only for an active resource of a course the student is enrolled in. -/
theorem C7_download_gate (db : DB) (uid rid : Nat) (fOk : Bool)
    (s : StudentProfile) (hs : findProfile db uid = some s) :
    (db.resources.find? (fun r => r.id == rid && r.is_active) = none →
       download_resource db uid rid fOk = HResp.notFound) ∧
    (∀ r, db.resources.find? (fun x => x.id == rid && x.is_active) = some r →
       enrolledIn s r.courseId = false →
       download_resource db uid rid fOk = HResp.notFound) ∧
    (∀ f, download_resource db uid rid fOk = HResp.fileAttachment f →
       ∃ r, db.resources.find? (fun x => x.id == rid && x.is_active) = some r ∧
         r.is_active = true ∧ enrolledIn s r.courseId = true) := by
  refine ⟨?_, ?_, ?_⟩
  · intro hnone
    simp [download_resource, hs, hnone]
  · intro r hr hne
    simp [download_resource, hs, hr, hne]
  · intro f hf
    rcases hfind : db.resources.find? (fun x => x.id == rid && x.is_active) with _ | r
    · rw [show download_resource db uid rid fOk = HResp.notFound from by
        simp [download_resource, hs, hfind]] at hf
      cases hf
    · by_cases he : enrolledIn s r.courseId = true
      · have hp := List.find?_some hfind
        simp only [Bool.and_eq_true] at hp
        exact ⟨r, hfind, hp.2, he⟩
      · have hne : enrolledIn s r.courseId = false := by
          cases hq : enrolledIn s r.courseId with
          | false => rfl
          | true => exact absurd hq he
        rw [show download_resource db uid rid fOk = HResp.notFound from by
          simp [download_resource, hs, hfind, hne]] at hf
        cases hf

/-- Witness for C7_download_gate: a lookup for an id with no active
resource is answered notFound. -/
theorem C7_download_gate_witness :
    download_resource db1 1 99 true = HResp.notFound :=
  (C7_download_gate db1 1 99 true profile1 rfl).1 rfl

/-- C8 counterexample: registering with the optional email left empty
while an existing account also has the empty email — the submitted
email equals an existing one — is accepted, and both rows are created:
`clean_email` skips the duplicate check for empty emails. -/
theorem C8_counterexample_duplicate_empty_email :
    user1 ∈ db1.users ∧ user1.email = "" ∧ inp1.email = "" ∧
    registration_errors db1 inp1 = [] ∧
    (student_register db1 inp1 3 3).2.users.length = db1.users.length + 1 ∧
    (student_register db1 inp1 3 3).2.profiles.length = db1.profiles.length + 1 :=
  ⟨by simp [db1], rfl, rfl, rfl, rfl, rfl⟩

/-- C8 amended: a submission whose Registration No duplicates an
existing one, or whose non-empty email duplicates an existing user's
email case-insensitively, fails validation with a field error and
creates no User or StudentProfile row; rows are created only when the
whole form validates. -/
theorem C8_amended_duplicate_rejected (db : DB) (inp : RegistrationInput)
    (nu np : Nat) :
    ((db.profiles.any (fun s => s.student_id == inp.student_id) = true ∨
      (inp.email ≠ "" ∧
        db.users.any (fun u => u.email.toLower == inp.email.toLower.trim) = true)) →
      registration_errors db inp ≠ [] ∧
      student_register db inp nu np = (HResp.render "register.html" none, db)) ∧
    ((student_register db inp nu np).2 ≠ db →
      registration_errors db inp = []) := by
  constructor
  · intro hdup
    have hne : registration_errors db inp ≠ [] := by
      rcases hdup with h | ⟨h1, h2⟩
      · have hmem : RegError.duplicate_student_id ∈ registration_errors db inp := by
          simp [registration_errors, h]
        exact List.ne_nil_of_mem hmem
      · have hconf : email_conflict db inp = true := by
          simp [email_conflict, h1, h2]
        have hmem : RegError.duplicate_email ∈ registration_errors db inp := by
          simp [registration_errors, hconf]
        exact List.ne_nil_of_mem hmem
    have hempty : (registration_errors db inp).isEmpty = false := by
      cases hq : registration_errors db inp with
      | nil => exact absurd hq hne
      | cons a t => rfl
    exact ⟨hne, by simp [student_register, hempty]⟩
  · intro hch
    by_contra hne
    have hempty : (registration_errors db inp).isEmpty = false := by
      cases hq : registration_errors db inp with
      | nil => exact absurd hq hne
      | cons a t => rfl
    exact hch (by simp [student_register, hempty])

/-- Witness for C8_amended_duplicate_rejected: a submission reusing
Registration No S1 is rejected and writes nothing. -/
theorem C8_amended_duplicate_rejected_witness :
    registration_errors db1 inp2 ≠ [] ∧
    student_register db1 inp2 3 3 = (HResp.render "register.html" none, db1) :=
  (C8_amended_duplicate_rejected db1 inp2 3 3).1 (Or.inl rfl)

/-- C9: for an enrolled student viewing a published module, after the
request exactly one completion row links that student and module
(created if absent, reused otherwise, under the unique-together
invariant), and a repeated view returns the same store unchanged. -/
theorem C9_exactly_one_completion_row (db : DB) (uid mid : Nat)
    (s : StudentProfile) (m : Module)
    (hs : findProfile db uid = some s)
    (hm : db.modules.find? (fun x => x.id == mid && x.is_published) = some m)
    (he : enrolledIn s m.courseId = true)
    (hcnt : db.completions.countP
        (fun c => c.studentId == s.id && c.moduleId == m.id) ≤ 1) :
    (module_detail db uid mid).2.completions.countP
        (fun c => c.studentId == s.id && c.moduleId == m.id) = 1 ∧
    module_detail (module_detail db uid mid).2 uid mid =
      (HResp.render "module_detail.html" none, (module_detail db uid mid).2) := by
  by_cases hany : db.completions.any
      (fun c => c.studentId == s.id && c.moduleId == m.id) = true
  · have hdb : module_detail db uid mid =
        (HResp.render "module_detail.html" none, db) := by
      simp only [module_detail, hs, hm]
      simp [he, hany]
    rw [hdb]
    constructor
    · have h1 : 0 < db.completions.countP
          (fun c => c.studentId == s.id && c.moduleId == m.id) := by
        rw [List.countP_pos_iff]
        simpa [List.any_eq_true] using hany
      show db.completions.countP
          (fun c => c.studentId == s.id && c.moduleId == m.id) = 1
      omega
    · simp only [module_detail, hs, hm]
      simp [he, hany]
  · have hfalse : db.completions.any
        (fun c => c.studentId == s.id && c.moduleId == m.id) = false := by
      cases hq : db.completions.any
          (fun c => c.studentId == s.id && c.moduleId == m.id) with
      | false => rfl
      | true => exact absurd hq hany
    have hdb : module_detail db uid mid =
        (HResp.render "module_detail.html" none,
         { db with completions :=
             { studentId := s.id, moduleId := m.id, completed := false, completed_at := none } :: db.completions }) := by
      simp only [module_detail, hs, hm]
      simp [he, hfalse]
    have h0 : db.completions.countP
        (fun c => c.studentId == s.id && c.moduleId == m.id) = 0 := by
      rw [List.countP_eq_zero]
      intro a ha
      exact List.any_eq_false.mp hfalse a ha
    rw [hdb]
    constructor
    · rw [show ({ db with completions :=
          { studentId := s.id, moduleId := m.id, completed := false, completed_at := none } :: db.completions } : DB).completions =
          { studentId := s.id, moduleId := m.id, completed := false, completed_at := none } :: db.completions from rfl]
      rw [List.countP_cons, h0]
      simp
    · have hs' : findProfile { db with completions :=
          { studentId := s.id, moduleId := m.id, completed := false, completed_at := none } :: db.completions } uid = some s := hs
      have hm' : ({ db with completions :=
          { studentId := s.id, moduleId := m.id, completed := false, completed_at := none } :: db.completions } : DB).modules.find?
            (fun x => x.id == mid && x.is_published) = some m := hm
      simp only [module_detail, hs', hm']
      simp [he]

/-- Witness for C9_exactly_one_completion_row at db1, module 1. -/
theorem C9_exactly_one_completion_row_witness :
    (module_detail db1 1 1).2.completions.countP
        (fun c => c.studentId == profile1.id && c.moduleId == module1.id) = 1 ∧
    module_detail (module_detail db1 1 1).2 1 1 =
      (HResp.render "module_detail.html" none, (module_detail db1 1 1).2) :=
  C9_exactly_one_completion_row db1 1 1 profile1 module1 rfl rfl rfl (by decide)

/-- C10: viewing a module never marks it completed.  Every completion
row a handler's store contains was already there or has `completed =
false` and `completed_at` unset; module_detail keeps every pre-existing
row; the other writing handlers never touch the completions table at
all; and `mark_complete` — which no handler invokes — is the operation
that sets `completed` and stamps `completed_at`. -/
theorem C10_view_never_marks_complete :
    (∀ (db : DB) (uid mid : Nat) (c : ModuleCompletion),
        c ∈ (module_detail db uid mid).2.completions →
          c ∈ db.completions ∨ (c.completed = false ∧ c.completed_at = none)) ∧
    (∀ (db : DB) (uid mid : Nat) (c : ModuleCompletion),
        c ∈ db.completions → c ∈ (module_detail db uid mid).2.completions) ∧
    (∀ (db : DB) (inp : RegistrationInput) (nu np : Nat),
        (student_register db inp nu np).2.completions = db.completions) ∧
    (∀ (db : DB) (uid cid year today : Nat),
        (generate_certificate db uid cid year today).2.completions = db.completions) ∧
    (∀ (c : ModuleCompletion) (now : Nat),
        (mark_complete c now).completed = true ∧
        (mark_complete c now).completed_at = some now) := by
  refine ⟨?_, ?_, ?_, ?_, ?_⟩
  · intro db uid mid c hc
    unfold module_detail at hc
    split at hc
    · exact Or.inl hc
    · split at hc
      · exact Or.inl hc
      · split at hc
        · exact Or.inl hc
        · split at hc
          · exact Or.inl hc
          · cases hc with
            | head => exact Or.inr ⟨rfl, rfl⟩
            | tail _ h => exact Or.inl h
  · intro db uid mid c hc
    unfold module_detail
    split
    · exact hc
    · split
      · exact hc
      · split
        · exact hc
        · split
          · exact hc
          · exact List.mem_cons_of_mem _ hc
  · intro db inp nu np
    unfold student_register
    split <;> rfl
  · intro db uid cid year today
    unfold generate_certificate
    split
    · rfl
    · split
      · rfl
      · split
        · rfl
        · split
          · rfl
          · split <;> rfl
  · intro c now
    exact ⟨rfl, rfl⟩

/-- Witness for C10_view_never_marks_complete: the row module_detail
creates in db1 is unmarked. -/
theorem C10_view_never_marks_complete_witness :
    (⟨1, 1, false, none⟩ : ModuleCompletion) ∈ db1.completions ∨
      ((⟨1, 1, false, none⟩ : ModuleCompletion).completed = false ∧
       (⟨1, 1, false, none⟩ : ModuleCompletion).completed_at = none) :=
  C10_view_never_marks_complete.1 db1 1 1 ⟨1, 1, false, none⟩ (by decide)

end Nursing
